import Mathlib

/-!
Verification development for the LexAI document-management backend.

The repository contains two FastAPI variants:
  * `src/main.py` with `src/models.py` (Advocate/Client/Case/Document,
    advocate-case association, permission-checked `upload_document`,
    `register_case`, validation layer `validate_file` / `sanitize_filename`);
  * `src/LexAI/main.py` with `src/LexAI/models.py` and
    `src/LexAI/utils/s3_utils.py` (User/Case/FileMetadata with `s3_key`,
    `file_size`, `is_deleted`; `upload_file`, `get_file`, `delete_file`).

Both are embedded shallowly below: database state is a record of lists of
rows, the blob store is the list of written keys, and external
nondeterminism (UUID parsing success, fresh UUID values, S3 and commit
success) is injected through an environment record, so the control flow of
each endpoint is a pure function of its inputs.
-/

/- ------------------------------------------------------------------ -/
/- Validation layer (src/main.py)                                      -/
/- ------------------------------------------------------------------ -/

/-- Configured maximum upload size: `MAX_FILE_SIZE = 10 * 1024 * 1024`
(src/main.py line 138). -/
def MAX_FILE_SIZE : Nat := 10 * 1024 * 1024

/-- Chunk size used by the streaming size check: `chunk_size = 1024`
(src/main.py line 144). -/
def chunk_size : Nat := 1024

/-- Allowed filename extensions (src/main.py line 137). -/
def ALLOWED_EXTENSIONS : List String :=
  [".pdf", ".doc", ".docx", ".txt", ".jpg", ".jpeg", ".png"]

/-- The streaming size-check loop of `validate_file` (src/main.py lines
143-151): read chunks of `chunk_size`, keep a running total, and abort as
soon as the total exceeds `MAX_FILE_SIZE`.  `rem` is the number of bytes
still ahead of the stream position, `acc` the running total (which equals
the current stream position).  Returns `(ok, position)` where `position`
is the stream position when the loop stops.  The first argument is
structural fuel; since every iteration consumes at least one byte,
`fuel = rem` suffices and `sizeLoop` instantiates it that way. -/
def sizeLoopAux : Nat → Nat → Nat → Bool × Nat
  | 0, _, acc => (true, acc)
  | fuel + 1, rem, acc =>
    if rem = 0 then (true, acc)
    else
      let c := min chunk_size rem
      if MAX_FILE_SIZE < acc + c then (false, acc + c)
      else sizeLoopAux fuel (rem - c) (acc + c)

/-- Size-check loop run on a stream holding `rem` unread bytes, starting
from a running total `acc`. -/
def sizeLoop (rem acc : Nat) : Bool × Nat :=
  sizeLoopAux rem rem acc

/-- Python `pathlib.PurePath(...).name`: the component after the last
slash (trailing slashes stripped first). -/
def pyName (s : String) : List Char :=
  let cs := ((s.toList.reverse.dropWhile (fun ch => ch = '/')).reverse)
  cs.foldl (fun acc ch => if ch = '/' then [] else acc.concat ch) []

/-- Index of the last occurrence of a dot in a character list, if any. -/
def lastDotIdx (cs : List Char) : Option Nat :=
  (List.range cs.length).foldl
    (fun acc i => if cs.get? i = some '.' then some i else acc) none

/-- Python `pathlib.PurePath(...).suffix`: the substring of the name from
its last dot on, provided that dot is neither the first nor the last
character of the name; otherwise the empty string. -/
def pySuffix (s : String) : String :=
  let name := pyName s
  match lastDotIdx name with
  | none => ""
  | some i =>
    if 0 < i ∧ i + 1 < name.length then String.mk (name.drop i) else ""

/-- Python `str.lower()` on the (ASCII) extension, character by
character. -/
def strLower (s : String) : String :=
  String.mk (s.toList.map Char.toLower)

/-- Outcome of `validate_file`. -/
inductive ValidateOutcome where
  | ok
  | err (status : Nat)
deriving DecidableEq

/-- `validate_file` (src/main.py lines 140-162) for a stream of
`fileLen` bytes named `filename`.  Returns the outcome together with the
stream position afterwards: the loop raises HTTP 400 as soon as the
running total exceeds `MAX_FILE_SIZE` (leaving the stream wherever the
last read stopped, since `file.seek(0)` only runs after the loop); on a
completed scan the stream is reset to 0 and the lower-cased extension is
checked against `ALLOWED_EXTENSIONS`. -/
def validate_file (filename : String) (fileLen : Nat) : ValidateOutcome × Nat :=
  let r := sizeLoop fileLen 0
  if r.1 = false then (ValidateOutcome.err 400, r.2)
  else
    let ext := strLower (pySuffix filename)
    if ext ∈ ALLOWED_EXTENSIONS then (ValidateOutcome.ok, 0)
    else (ValidateOutcome.err 400, 0)

/-- `sanitize_filename` (src/main.py lines 164-169): discard the base
name, keep `Path(filename).suffix` verbatim (no case change) and prepend
a fresh UUID, here passed in as `freshUuid`. -/
def sanitize_filename (freshUuid : String) (filename : String) : String :=
  freshUuid ++ pySuffix filename

/- ------------------------------------------------------------------ -/
/- Blob store adapter                                                  -/
/- ------------------------------------------------------------------ -/

/-- URL of an S3 object (src/LexAI/utils/s3_utils.py lines 21-24). -/
def s3Url (bucket key : String) : String :=
  "https://" ++ bucket ++ ".s3.amazonaws.com/" ++ key

/- ------------------------------------------------------------------ -/
/- Data model of src/models.py                                         -/
/- ------------------------------------------------------------------ -/

/-- Row of table `advocates` (src/models.py). -/
structure Advocate where
  id : String
  name : String
  email : String
deriving DecidableEq

/-- Row of table `clients` (src/models.py). -/
structure ClientRow where
  id : String
  name : String
  contact_number : String
  address : String
deriving DecidableEq

/-- Row of table `cases` (src/models.py). -/
structure CaseRow where
  id : String
  name : String
  case_type : String
  client_id : String
  description : Option String
  filing_date : Option String
deriving DecidableEq

/-- Row of table `documents` (src/models.py). -/
structure Document where
  id : String
  doc_type : String
  file_name : String
  file_path : String
  adv_id : String
  case_id : String
deriving DecidableEq

/-- Relational state of the src/main.py variant: the four tables plus the
`advocate_cases` association table (rows are advocate-id/case-id pairs). -/
structure DB where
  advocates : List Advocate
  clients : List ClientRow
  cases : List CaseRow
  advocate_cases : List (String × String)
  documents : List Document
deriving DecidableEq

/-- `db.query(Advocate).filter(Advocate.id == a).first()`. -/
def findAdvocate (db : DB) (a : String) : Option Advocate :=
  db.advocates.find? (fun r => r.id == a)

/-- `db.query(Case).filter(Case.id == c).first()`. -/
def findCase (db : DB) (c : String) : Option CaseRow :=
  db.cases.find? (fun r => r.id == c)

/-- `db.query(Client).filter(Client.id == c).first()`. -/
def findClient (db : DB) (c : String) : Option ClientRow :=
  db.clients.find? (fun r => r.id == c)

/-- The ORM membership test `advocate in case.advocate`: the association
table holds a row linking the advocate to the case. -/
def onCase (db : DB) (a c : String) : Bool :=
  db.advocate_cases.any (fun p => p.1 == a && p.2 == c)

/-- Environment of a single request against the src/main.py variant:
`uuidOk s` models whether `uuid.UUID(s)` parses, `freshUuid` the value of
`uuid.uuid4()` drawn in `sanitize_filename`, `freshDocId` the
database-default id of a newly inserted row, `bucket` the configured S3
bucket, `s3PutOk` whether the S3 upload succeeds and `commitOk` whether
the metadata transaction commits. -/
structure Env where
  uuidOk : String → Bool
  freshUuid : String
  freshDocId : String
  freshCaseId : String
  bucket : String
  s3PutOk : Bool
  commitOk : Bool

/-- The storage key derived in `upload_document` (src/main.py line 224):
`{advocate_id}/{case_id}/{doc_type}/{filename}`. -/
def uploadKey (advocate_id case_id doc_type fname : String) : String :=
  advocate_id ++ "/" ++ case_id ++ "/" ++ doc_type ++ "/" ++ fname

/-- Result of the `upload_document` endpoint. -/
inductive UploadResult where
  | success (document_id : String) (url : String) (file_name : String)
  | httpError (status : Nat)
deriving DecidableEq

/-- `upload_document` (src/main.py lines 171-264).  The blob store is the
list of keys written so far; the function returns the HTTP outcome, the
database after the request and the blob store after the request.
The S3 `put` itself is the adapter of src/LexAI/utils/s3_utils.py
(`upload_to_s3`), abstracted to the success flag `env.s3PutOk` and the
bucket URL; an S3 failure is caught and turned into HTTP 500 before any
row is added.  A commit failure rolls the transaction back, logs and
returns HTTP 400 — the endpoint issues no compensating blob delete on
that path, so the key written by the put stays in the store. -/
def upload_document (env : Env) (db : DB) (blob : List String)
    (filename : String) (fileLen : Nat)
    (advocate_id case_id doc_type : String) :
    UploadResult × DB × List String :=
  if ¬ (env.uuidOk advocate_id = true ∧ env.uuidOk case_id = true) then
    (UploadResult.httpError 400, db, blob)
  else
    match findAdvocate db advocate_id with
    | none => (UploadResult.httpError 404, db, blob)
    | some _ =>
      match findCase db case_id with
      | none => (UploadResult.httpError 404, db, blob)
      | some _ =>
        if onCase db advocate_id case_id = false then
          (UploadResult.httpError 403, db, blob)
        else
          if (validate_file filename fileLen).1 ≠ ValidateOutcome.ok then
            (UploadResult.httpError 400, db, blob)
          else
            let safe := sanitize_filename env.freshUuid filename
            let key := uploadKey advocate_id case_id doc_type safe
            if env.s3PutOk = false then (UploadResult.httpError 500, db, blob)
            else
              let blob2 := blob ++ [key]
              let url := s3Url env.bucket key
              let doc : Document :=
                { id := env.freshDocId, doc_type := doc_type,
                  file_name := safe, file_path := url,
                  adv_id := advocate_id, case_id := case_id }
              if env.commitOk then
                (UploadResult.success env.freshDocId url safe,
                 { db with documents := db.documents ++ [doc] }, blob2)
              else
                (UploadResult.httpError 400, db, blob2)

/- ------------------------------------------------------------------ -/
/- register_case (src/main.py lines 59-108)                            -/
/- ------------------------------------------------------------------ -/

/-- A Python exception escaping the `try` block of `register_case`:
`ValueError` from `uuid.UUID`, an `HTTPException` raised with an explicit
status, or a database error from `db.commit()`. -/
inductive PyExc where
  | valueError
  | httpExc (status : Nat)
  | dbError
deriving DecidableEq

/-- Result of the `register_case` endpoint. -/
inductive RegisterResult where
  | success (case_id : String)
  | httpError (status : Nat)
deriving DecidableEq

/-- The `try` block of `register_case` (src/main.py lines 70-101): parse
both UUIDs (`ValueError` on failure), look up advocate and client
(raising `HTTPException(404)` when absent), then insert the case row with
the client foreign key together with the advocate association row in one
transaction. -/
def register_case_try (env : Env) (db : DB)
    (case_name advocate_id client_id case_type : String)
    (case_description filing_date : Option String) :
    Except PyExc (String × DB) :=
  if env.uuidOk advocate_id = false then Except.error PyExc.valueError
  else if env.uuidOk client_id = false then Except.error PyExc.valueError
  else
    match findAdvocate db advocate_id, findClient db client_id with
    | none, _ => Except.error (PyExc.httpExc 404)
    | some _, none => Except.error (PyExc.httpExc 404)
    | some _, some _ =>
      let newCase : CaseRow :=
        { id := env.freshCaseId, name := case_name, case_type := case_type,
          client_id := client_id, description := case_description,
          filing_date := filing_date }
      if env.commitOk then
        Except.ok (env.freshCaseId,
          { db with cases := db.cases ++ [newCase],
                    advocate_cases :=
                      db.advocate_cases ++ [(advocate_id, env.freshCaseId)] })
      else Except.error PyExc.dbError

/-- `register_case` (src/main.py lines 59-108) including its exception
handlers: `except ValueError` answers 400 for a malformed UUID, and the
following `except Exception` catches every other exception — including
the `HTTPException(404)` raised inside the `try` block for a missing
advocate or client — rolls back, and re-raises it as HTTP 400. -/
def register_case (env : Env) (db : DB)
    (case_name advocate_id client_id case_type : String)
    (case_description filing_date : Option String) :
    RegisterResult × DB :=
  match register_case_try env db case_name advocate_id client_id case_type
      case_description filing_date with
  | Except.ok (cid, db2) => (RegisterResult.success cid, db2)
  | Except.error PyExc.valueError => (RegisterResult.httpError 400, db)
  | Except.error _ => (RegisterResult.httpError 400, db)

/- ------------------------------------------------------------------ -/
/- The src/LexAI variant                                               -/
/- ------------------------------------------------------------------ -/

namespace LexAI

/-- Row of table `files` (src/LexAI/models.py, class `FileMetadata`). -/
structure FileMetadata where
  id : String
  file_name : String
  case_id : String
  lawyer_id : String
  s3_key : String
  s3_url : String
  file_size : Nat
  file_type : String
  uploaded_at : Nat
  version_id : Option String
  is_deleted : Bool
deriving DecidableEq

/-- Relational state of the src/LexAI variant, restricted to the `files`
table the file endpoints read and write. -/
structure DB where
  files : List FileMetadata
deriving DecidableEq

/-- Request environment of the src/LexAI variant: `uuidOk s` models
whether `uuid.UUID(s)` parses, `freshId` the database-default id of a new
row, `now` the `uploaded_at` default timestamp, `bucket` the configured
S3 bucket, and the flags whether the S3 put / S3 delete / presigned-URL
generation / metadata commit succeed. -/
structure Env where
  uuidOk : String → Bool
  freshId : String
  now : Nat
  bucket : String
  s3PutOk : Bool
  s3DeleteOk : Bool
  presignOk : Bool
  commitOk : Bool

/-- Allowed document categories (src/LexAI/main.py line 98). -/
def allowed_types : List String :=
  ["petition", "evidence", "application", "miscellaneous"]

/-- The `s3_key` column of every row of the `files` table. -/
def s3Keys (db : DB) : List String :=
  db.files.map (fun r => r.s3_key)

/-- Result of the `upload_file` endpoint. -/
inductive UploadFileResult where
  | success (file_id : String) (s3_url_val : String)
  | httpError (status : Nat)
deriving DecidableEq

/-- `upload_file` (src/LexAI/main.py lines 89-151): check the category
allow-list, measure the size by seek/tell, build the S3 key as
`{adv_id}/{case_id}/{file_type}/{client-supplied filename}`, upload to S3
(`None` from `upload_to_s3` answers HTTP 500 with nothing written), then
build the metadata row — whose `uuid.UUID` conversions run only after
the blob write and answer HTTP 400 on failure — and `db.add`/`db.commit`
with no exception handler: a commit failure (for instance a violation of
the `s3_key` unique constraint of src/LexAI/models.py line 19) escapes as
an unhandled exception, surfacing as HTTP 500 with the session rolled
back; no path deletes an already-written blob. -/
def upload_file (env : Env) (db : DB) (blob : List String)
    (filename : String) (fileLen : Nat)
    (adv_id case_id file_type : String) :
    UploadFileResult × DB × List String :=
  if file_type ∉ allowed_types then (UploadFileResult.httpError 400, db, blob)
  else
    let file_key := adv_id ++ "/" ++ case_id ++ "/" ++ file_type ++ "/" ++ filename
    if env.s3PutOk = false then (UploadFileResult.httpError 500, db, blob)
    else
      let blob2 := blob ++ [file_key]
      let url := s3Url env.bucket file_key
      if ¬ (env.uuidOk case_id = true ∧ env.uuidOk adv_id = true) then
        (UploadFileResult.httpError 400, db, blob2)
      else
        let row : FileMetadata :=
          { id := env.freshId, file_name := filename, case_id := case_id,
            lawyer_id := adv_id, s3_key := file_key, s3_url := url,
            file_size := fileLen, file_type := file_type,
            uploaded_at := env.now, version_id := none, is_deleted := false }
        if env.commitOk = true ∧ file_key ∉ s3Keys db then
          (UploadFileResult.success env.freshId url,
           { files := db.files ++ [row] }, blob2)
        else (UploadFileResult.httpError 500, db, blob2)

/-- The lookup shared by `get_file` and `delete_file` (src/LexAI/main.py
lines 160-163 and 189-192): first row with the requested id whose
`is_deleted` flag is false. -/
def findActive (db : DB) (fid : String) : Option FileMetadata :=
  db.files.find? (fun r => r.id == fid && r.is_deleted == false)

/-- Descriptor returned by a successful `get_file`. -/
structure FileDescriptor where
  file_name : String
  presigned_url : String
  file_size : Nat
  file_type : String
  uploaded_at : Nat
deriving DecidableEq

/-- Result of the `get_file` endpoint. -/
inductive GetFileResult where
  | success (d : FileDescriptor)
  | httpError (status : Nat)
deriving DecidableEq

/-- `generate_presigned_url` (src/LexAI/utils/s3_utils.py lines 49-64)
abstracted to its observable behaviour: a fresh signed URL for the key on
success, `None` on failure. -/
def presignedUrlFor (env : Env) (key : String) : Option String :=
  if env.presignOk then some ("presigned-" ++ key) else none

/-- `get_file` (src/LexAI/main.py lines 153-180): validate the id, look
up the non-deleted row (404 otherwise), generate a fresh presigned URL
(500 on failure) and return the descriptor. -/
def get_file (env : Env) (db : DB) (file_id : String) : GetFileResult :=
  if env.uuidOk file_id = false then GetFileResult.httpError 400
  else
    match findActive db file_id with
    | none => GetFileResult.httpError 404
    | some r =>
      match presignedUrlFor env r.s3_key with
      | none => GetFileResult.httpError 500
      | some u =>
        GetFileResult.success
          { file_name := r.file_name, presigned_url := u,
            file_size := r.file_size, file_type := r.file_type,
            uploaded_at := r.uploaded_at }

/-- Result of the `delete_file` endpoint. -/
inductive DeleteFileResult where
  | success
  | httpError (status : Nat)
deriving DecidableEq

/-- The soft-delete write of `delete_file` (src/LexAI/main.py line 204):
set `is_deleted` on the row the lookup found, i.e. the first row with the
given id whose flag is still false, leaving every other row alone. -/
def markDeleted : List FileMetadata → String → List FileMetadata
  | [], _ => []
  | r :: rs, fid =>
    if r.id == fid && r.is_deleted == false then
      { r with is_deleted := true } :: rs
    else r :: markDeleted rs fid

/-- `delete_file` (src/LexAI/main.py lines 182-207): validate the id,
look up the non-deleted row (404 otherwise), delete the blob from S3 —
aborting with HTTP 500 and the metadata untouched when `delete_from_s3`
reports failure — and only then set the row's soft-delete flag and
commit. -/
def delete_file (env : Env) (db : DB) (blob : List String)
    (file_id : String) : DeleteFileResult × DB × List String :=
  if env.uuidOk file_id = false then (DeleteFileResult.httpError 400, db, blob)
  else
    match findActive db file_id with
    | none => (DeleteFileResult.httpError 404, db, blob)
    | some r =>
      if env.s3DeleteOk = false then (DeleteFileResult.httpError 500, db, blob)
      else
        (DeleteFileResult.success,
         { files := markDeleted db.files file_id },
         blob.filter (fun k => k ≠ r.s3_key))

end LexAI

/- ------------------------------------------------------------------ -/
/- Concrete sample states used by witnesses and counterexamples        -/
/- ------------------------------------------------------------------ -/

/-- Sample advocate row. -/
def advA : Advocate := { id := "a1", name := "A", email := "a@x.com" }

/-- Sample client row. -/
def clientK : ClientRow :=
  { id := "k1", name := "C", contact_number := "1", address := "addr" }

/-- Sample case row owned by `clientK`. -/
def caseC : CaseRow :=
  { id := "c1", name := "Case1", case_type := "civil", client_id := "k1",
    description := none, filing_date := none }

/-- Sample database in which advocate `a1` is associated with case `c1`. -/
def db1 : DB :=
  { advocates := [advA], clients := [clientK], cases := [caseC],
    advocate_cases := [("a1", "c1")], documents := [] }

/-- Sample database in which advocate `a1` and case `c1` exist but are
not associated. -/
def db3 : DB := { db1 with advocate_cases := [] }

/-- Sample database with the client but no advocate rows. -/
def db9 : DB :=
  { advocates := [], clients := [clientK], cases := [],
    advocate_cases := [], documents := [] }

/-- Sample environment for the src/main.py variant: every id parses, the
fresh values are fixed, and the two failure flags are parameters. -/
def envAll (s3 commit : Bool) : Env :=
  { uuidOk := fun _ => true, freshUuid := "u1", freshDocId := "d1",
    freshCaseId := "n1", bucket := "b", s3PutOk := s3, commitOk := commit }

/-- Sample environment for the src/LexAI variant. -/
def lenv (fresh : String) (s3 del presign commit : Bool) : LexAI.Env :=
  { uuidOk := fun _ => true, freshId := fresh, now := 0, bucket := "b",
    s3PutOk := s3, s3DeleteOk := del, presignOk := presign,
    commitOk := commit }

/-- Empty src/LexAI database. -/
def ldb0 : LexAI.DB := { files := [] }

/-- Sample non-deleted file row of the src/LexAI variant. -/
def lrow : LexAI.FileMetadata :=
  { id := "f1", file_name := "brief.pdf", case_id := "c1",
    lawyer_id := "a1", s3_key := "a1/c1/petition/brief.pdf",
    s3_url := "https://b.s3.amazonaws.com/a1/c1/petition/brief.pdf",
    file_size := 10, file_type := "petition", uploaded_at := 0,
    version_id := none, is_deleted := false }

/-- src/LexAI database holding exactly `lrow`. -/
def ldb1 : LexAI.DB := { files := [lrow] }

/- ------------------------------------------------------------------ -/
/- Lemmas about the streaming size check                               -/
/- ------------------------------------------------------------------ -/

/-- When the whole stream fits the limit, the loop scans it all and
stops at position `acc + rem` reporting success. -/
theorem sizeLoopAux_fits (fuel : Nat) :
    ∀ rem acc, rem ≤ fuel → acc + rem ≤ MAX_FILE_SIZE →
      sizeLoopAux fuel rem acc = (true, acc + rem) := by
  induction fuel with
  | zero =>
    intro rem acc h1 _
    have hr : rem = 0 := Nat.le_zero.mp h1
    subst hr
    simp [sizeLoopAux]
  | succ m ih =>
    intro rem acc h1 h2
    by_cases hr : rem = 0
    · subst hr
      simp [sizeLoopAux]
    · have hm1 : 0 < min chunk_size rem := by
        have hc : 0 < chunk_size := by decide
        exact Nat.lt_min.mpr ⟨hc, Nat.pos_of_ne_zero hr⟩
      have hm2 : min chunk_size rem ≤ rem := Nat.min_le_right _ _
      have hno : ¬ MAX_FILE_SIZE < acc + min chunk_size rem := by omega
      have hrec := ih (rem - min chunk_size rem) (acc + min chunk_size rem)
        (by omega) (by omega)
      simp only [sizeLoopAux, hr, if_neg hno, if_neg hr, hrec,
        if_false, ite_false]
      have harith : acc + min chunk_size rem + (rem - min chunk_size rem)
          = acc + rem := by omega
      simp [harith]

/-- When the stream exceeds the limit, the loop reports failure and
stops at a position strictly beyond the limit (in particular not 0). -/
theorem sizeLoopAux_over (fuel : Nat) :
    ∀ rem acc, rem ≤ fuel → acc ≤ MAX_FILE_SIZE →
      MAX_FILE_SIZE < acc + rem →
      (sizeLoopAux fuel rem acc).1 = false ∧
        MAX_FILE_SIZE < (sizeLoopAux fuel rem acc).2 := by
  induction fuel with
  | zero =>
    intro rem acc h1 h2 h3
    have hr : rem = 0 := Nat.le_zero.mp h1
    omega
  | succ m ih =>
    intro rem acc h1 h2 h3
    have hr : rem ≠ 0 := by omega
    have hm1 : 0 < min chunk_size rem := by
      have hc : 0 < chunk_size := by decide
      exact Nat.lt_min.mpr ⟨hc, Nat.pos_of_ne_zero hr⟩
    have hm2 : min chunk_size rem ≤ rem := Nat.min_le_right _ _
    by_cases hover : MAX_FILE_SIZE < acc + min chunk_size rem
    · simp [sizeLoopAux, hr, if_pos hover, hover]
    · have hrec := ih (rem - min chunk_size rem) (acc + min chunk_size rem)
        (by omega) (by omega) (by omega)
      simpa [sizeLoopAux, hr, if_neg hover] using hrec

/-- `validate_file` on an oversize stream: rejection with status 400,
stream left past the limit. -/
theorem validate_file_over (filename : String) (n : Nat)
    (h : MAX_FILE_SIZE < n) :
    (validate_file filename n).1 = ValidateOutcome.err 400 ∧
      MAX_FILE_SIZE < (validate_file filename n).2 := by
  have hover := sizeLoopAux_over n n 0 (Nat.le_refl n)
    (Nat.zero_le _) (by omega)
  have h1 : (sizeLoop n 0).1 = false := hover.1
  constructor
  · simp [validate_file, sizeLoop] at *
    simp [h1]
  · simp [validate_file, sizeLoop] at *
    simp [h1]
    exact hover.2

/-- `validate_file` on a stream within the limit: the position is reset
to 0 before the extension check and stays there. -/
theorem validate_file_reset (filename : String) (n : Nat)
    (h : n ≤ MAX_FILE_SIZE) :
    (validate_file filename n).2 = 0 := by
  have hfits := sizeLoopAux_fits n n 0 (Nat.le_refl n) (by omega)
  have h1 : sizeLoop n 0 = (true, n) := by simpa [sizeLoop] using hfits
  by_cases he : strLower (pySuffix filename) ∈ ALLOWED_EXTENSIONS
  · simp [validate_file, h1, he]
  · simp [validate_file, h1, he]

/- ------------------------------------------------------------------ -/
/- Claim C8                                                            -/
/- ------------------------------------------------------------------ -/

/-- Claim C8 (amended): the size check streams the file in fixed-size
chunks keeping a running byte count and rejects with status 400 as soon
as the running total exceeds `MAX_FILE_SIZE`, before any blob write or
metadata write happens; the stream position is reset to the start only
when the scan completes within the limit — on abort the position is
left past the limit, not reset. -/
theorem validate_file_size_check :
    ∀ (filename : String) (n : Nat),
      (MAX_FILE_SIZE < n →
        (validate_file filename n).1 = ValidateOutcome.err 400 ∧
          MAX_FILE_SIZE < (validate_file filename n).2) ∧
      (n ≤ MAX_FILE_SIZE → (validate_file filename n).2 = 0) ∧
      (∀ (env : Env) (db : DB) (blob : List String) (a c t : String),
        MAX_FILE_SIZE < n →
          (upload_document env db blob filename n a c t).2.1 = db ∧
            (upload_document env db blob filename n a c t).2.2 = blob) := by
  intro filename n
  refine ⟨validate_file_over filename n, validate_file_reset filename n, ?_⟩
  intro env db blob a c t hn
  by_cases hu : env.uuidOk a = true ∧ env.uuidOk c = true
  · cases hA : findAdvocate db a with
    | none => simp [upload_document, hu, hA]
    | some adv =>
      cases hC : findCase db c with
      | none => simp [upload_document, hu, hA, hC]
      | some kk =>
        by_cases hp : onCase db a c = false
        · simp [upload_document, hu, hA, hC, hp]
        · have hv := (validate_file_over filename n hn).1
          simp [upload_document, hu, hA, hC, hp, hv]
  · simp [upload_document, hu]

/-- Claim C8, counterexample to the claim as stated: on an oversize
stream (one byte above the 10 MiB limit) `validate_file` aborts with
status 400 but does not reset the stream position — `file.seek(0)` is
only reached after the size loop completes, so the position stays past
the limit instead of 0. -/
theorem validate_file_abort_no_reset_cex :
    (validate_file "big.pdf" (MAX_FILE_SIZE + 1)).1 = ValidateOutcome.err 400 ∧
      (validate_file "big.pdf" (MAX_FILE_SIZE + 1)).2 ≠ 0 := by
  have h := validate_file_over "big.pdf" (MAX_FILE_SIZE + 1) (Nat.lt_succ_self _)
  exact ⟨h.1, by omega⟩

/-- Claim C8, witness: the amended theorem applied at concrete inputs
(an oversize file of `MAX_FILE_SIZE + 1` bytes and a 10-byte file). -/
theorem validate_file_size_check_witness :
    ((validate_file "big.pdf" (MAX_FILE_SIZE + 1)).1 = ValidateOutcome.err 400 ∧
      MAX_FILE_SIZE < (validate_file "big.pdf" (MAX_FILE_SIZE + 1)).2) ∧
    (validate_file "a.pdf" 10).2 = 0 ∧
    ((upload_document (envAll true true) db1 [] "big.pdf" (MAX_FILE_SIZE + 1)
        "a1" "c1" "evidence").2.1 = db1 ∧
      (upload_document (envAll true true) db1 [] "big.pdf" (MAX_FILE_SIZE + 1)
        "a1" "c1" "evidence").2.2 = []) :=
  ⟨(validate_file_size_check "big.pdf" (MAX_FILE_SIZE + 1)).1 (by omega),
   (validate_file_size_check "a.pdf" 10).2.1 (by decide),
   (validate_file_size_check "big.pdf" (MAX_FILE_SIZE + 1)).2.2
     (envAll true true) db1 [] "a1" "c1" "evidence" (by omega)⟩

/- ------------------------------------------------------------------ -/
/- Characterization of rows added by upload_document                   -/
/- ------------------------------------------------------------------ -/

/-- Every document row present after `upload_document` either was
already in the database or is the single new row: fresh id, sanitized
filename, URL of the derived storage key, the requested advocate, case
and type — with that storage key present in the blob store afterwards. -/
theorem upload_document_new_doc (env : Env) (db : DB) (blob : List String)
    (f : String) (n : Nat) (a c t : String) (d : Document)
    (hd : d ∈ (upload_document env db blob f n a c t).2.1.documents) :
    d ∈ db.documents ∨
      (d.id = env.freshDocId ∧ d.doc_type = t ∧
       d.file_name = sanitize_filename env.freshUuid f ∧
       d.file_path =
         s3Url env.bucket (uploadKey a c t (sanitize_filename env.freshUuid f)) ∧
       d.adv_id = a ∧ d.case_id = c ∧
       uploadKey a c t (sanitize_filename env.freshUuid f) ∈
         (upload_document env db blob f n a c t).2.2) := by
  by_cases hu : env.uuidOk a = true ∧ env.uuidOk c = true
  · cases hA : findAdvocate db a with
    | none => left; simpa [upload_document, hu, hA] using hd
    | some adv =>
      cases hC : findCase db c with
      | none => left; simpa [upload_document, hu, hA, hC] using hd
      | some kk =>
        by_cases hp : onCase db a c = false
        · left; simpa [upload_document, hu, hA, hC, hp] using hd
        · by_cases hv : (validate_file f n).1 = ValidateOutcome.ok
          · by_cases hs : env.s3PutOk = false
            · left; simpa [upload_document, hu, hA, hC, hp, hv, hs] using hd
            · by_cases hcm : env.commitOk = true
              · simp [upload_document, hu, hA, hC, hp, hv, hs, hcm,
                  List.mem_append] at hd
                rcases hd with hd | hd
                · exact Or.inl hd
                · right
                  subst hd
                  refine ⟨rfl, rfl, rfl, rfl, rfl, rfl, ?_⟩
                  simp [upload_document, hu, hA, hC, hp, hv, hs, hcm]
              · left; simpa [upload_document, hu, hA, hC, hp, hv, hs, hcm] using hd
          · left; simpa [upload_document, hu, hA, hC, hp, hv] using hd
  · left; simpa [upload_document, hu] using hd

/- ------------------------------------------------------------------ -/
/- Claim C7                                                            -/
/- ------------------------------------------------------------------ -/

/-- Claim C7 (amended): `sanitize_filename` discards the client-supplied
base name entirely — it depends only on the extension — and produces the
fresh identifier followed by the original extension with its original
casing (the code applies no `lower()` there); the stored record's file
name is exactly this sanitized name. -/
theorem sanitize_filename_shape :
    ∀ (u f : String),
      sanitize_filename u f = u ++ pySuffix f ∧
      (∀ g, pySuffix g = pySuffix f →
        sanitize_filename u g = sanitize_filename u f) ∧
      (∀ (env : Env) (db : DB) (blob : List String) (n : Nat)
         (a c t : String) (d : Document),
        env.freshUuid = u →
        d ∈ (upload_document env db blob f n a c t).2.1.documents →
        d ∈ db.documents ∨ d.file_name = sanitize_filename u f) := by
  intro u f
  refine ⟨rfl, ?_, ?_⟩
  · intro g hg
    simp [sanitize_filename, hg]
  · intro env db blob n a c t d hu hd
    rcases upload_document_new_doc env db blob f n a c t d hd with h | h
    · exact Or.inl h
    · right
      rw [h.2.2.1, hu]

/-- Claim C7, counterexample to the claim as stated: for the upload name
`FOO.PDF` the sanitized name keeps the upper-case extension `.PDF`
verbatim — it is not the lower-cased extension the claim describes. -/
theorem sanitize_filename_not_lowercased_cex :
    sanitize_filename "u1" "FOO.PDF" = "u1.PDF" ∧
      sanitize_filename "u1" "FOO.PDF" ≠ "u1" ++ strLower (pySuffix "FOO.PDF") := by
  decide

/-- Claim C7, witness: the amended theorem applied at concrete inputs —
two names sharing the extension `.PDF` sanitize identically, and the
document row stored by a concrete successful upload carries the
sanitized name. -/
theorem sanitize_filename_shape_witness :
    sanitize_filename "u1" "dir/other.PDF" = sanitize_filename "u1" "FOO.PDF" ∧
    (({ id := "d1", doc_type := "evidence",
        file_name := sanitize_filename "u1" "brief.pdf",
        file_path := s3Url "b" (uploadKey "a1" "c1" "evidence"
          (sanitize_filename "u1" "brief.pdf")),
        adv_id := "a1", case_id := "c1" } : Document) ∈ db1.documents ∨
      ({ id := "d1", doc_type := "evidence",
         file_name := sanitize_filename "u1" "brief.pdf",
         file_path := s3Url "b" (uploadKey "a1" "c1" "evidence"
           (sanitize_filename "u1" "brief.pdf")),
         adv_id := "a1", case_id := "c1" } : Document).file_name =
        sanitize_filename "u1" "brief.pdf") :=
  ⟨(sanitize_filename_shape "u1" "FOO.PDF").2.1 "dir/other.PDF" (by decide),
   (sanitize_filename_shape "u1" "brief.pdf").2.2 (envAll true true) db1 []
     10 "a1" "c1" "evidence" _ rfl (by decide)⟩

/- ------------------------------------------------------------------ -/
/- Claim C1                                                            -/
/- ------------------------------------------------------------------ -/

/-- Claim C1 (amended): when the metadata commit fails after the blob
write, neither upload endpoint attempts to delete the just-written blob.
`upload_document` (src/main.py) rolls the transaction back, logs, and
answers the commit failure as HTTP 400 with the orphaned key still in
the blob store; the LexAI `upload_file` has no handler around its commit
at all, so the exception escapes as HTTP 500, again leaving the key in
the store. -/
theorem upload_commit_failure_keeps_blob :
    (∀ (env : Env) (db : DB) (blob : List String) (f : String) (n : Nat)
       (a c t : String),
      env.uuidOk a = true → env.uuidOk c = true →
      (findAdvocate db a).isSome = true → (findCase db c).isSome = true →
      onCase db a c = true → (validate_file f n).1 = ValidateOutcome.ok →
      env.s3PutOk = true → env.commitOk = false →
      upload_document env db blob f n a c t =
        (UploadResult.httpError 400, db,
         blob ++ [uploadKey a c t (sanitize_filename env.freshUuid f)])) ∧
    (∀ (env : LexAI.Env) (db : LexAI.DB) (blob : List String) (f : String)
       (n : Nat) (a c t : String),
      t ∈ LexAI.allowed_types → env.s3PutOk = true →
      env.uuidOk c = true → env.uuidOk a = true → env.commitOk = false →
      LexAI.upload_file env db blob f n a c t =
        (LexAI.UploadFileResult.httpError 500, db,
         blob ++ [a ++ "/" ++ c ++ "/" ++ t ++ "/" ++ f])) := by
  constructor
  · intro env db blob f n a c t h1 h2 h3 h4 h5 h6 h7 h8
    cases hA : findAdvocate db a with
    | none => rw [hA] at h3; simp at h3
    | some adv =>
      cases hC : findCase db c with
      | none => rw [hC] at h4; simp at h4
      | some kk => simp [upload_document, h1, h2, hA, hC, h5, h6, h7, h8]
  · intro env db blob f n a c t h1 h2 h3 h4 h5
    simp [LexAI.upload_file, h1, h2, h3, h4, h5]

/-- Claim C1, counterexample to the claim as stated: a concrete upload
in which the commit fails after a successful blob write ends with the
written key still in the blob store — no compensating delete happened —
while the commit failure is reported as HTTP 400. -/
theorem upload_commit_failure_blob_not_deleted_cex :
    (upload_document (envAll true false) db1 [] "brief.pdf" 10
        "a1" "c1" "evidence").1 = UploadResult.httpError 400 ∧
      uploadKey "a1" "c1" "evidence" (sanitize_filename "u1" "brief.pdf") ∈
        (upload_document (envAll true false) db1 [] "brief.pdf" 10
          "a1" "c1" "evidence").2.2 := by
  decide

/-- Claim C1, witness: the amended theorem applied to a concrete
commit-failing upload in each variant. -/
theorem upload_commit_failure_keeps_blob_witness :
    upload_document (envAll true false) db1 [] "brief.pdf" 10
        "a1" "c1" "evidence" =
      (UploadResult.httpError 400, db1,
       [] ++ [uploadKey "a1" "c1" "evidence"
         (sanitize_filename "u1" "brief.pdf")]) ∧
    LexAI.upload_file (lenv "f1" true true true false) ldb0 [] "brief.pdf"
        10 "a1" "c1" "petition" =
      (LexAI.UploadFileResult.httpError 500, ldb0,
       [] ++ ["a1" ++ "/" ++ "c1" ++ "/" ++ "petition" ++ "/" ++ "brief.pdf"]) :=
  ⟨upload_commit_failure_keeps_blob.1 (envAll true false) db1 [] "brief.pdf"
     10 "a1" "c1" "evidence" rfl rfl (by decide) (by decide) (by decide)
     (by decide) rfl rfl,
   upload_commit_failure_keeps_blob.2 (lenv "f1" true true true false) ldb0
     [] "brief.pdf" 10 "a1" "c1" "petition" (by decide) rfl rfl rfl rfl⟩

/- ------------------------------------------------------------------ -/
/- Claim C2                                                            -/
/- ------------------------------------------------------------------ -/

/-- Claim C2 (confirmed): in both upload endpoints the blob write
strictly precedes the metadata commit.  If the blob write fails, the
request aborts — with HTTP 500 when the pipeline reached the write — and
neither variant creates a metadata row or touches the store; and every
metadata row present after an upload either predates it or points at a
key that is in the blob store afterwards. -/
theorem upload_blob_before_commit :
    (∀ (env : Env) (db : DB) (blob : List String) (f : String) (n : Nat)
       (a c t : String),
      env.s3PutOk = false →
        (upload_document env db blob f n a c t).2.1 = db ∧
          (upload_document env db blob f n a c t).2.2 = blob) ∧
    (∀ (env : Env) (db : DB) (blob : List String) (f : String) (n : Nat)
       (a c t : String),
      env.uuidOk a = true → env.uuidOk c = true →
      (findAdvocate db a).isSome = true → (findCase db c).isSome = true →
      onCase db a c = true → (validate_file f n).1 = ValidateOutcome.ok →
      env.s3PutOk = false →
      upload_document env db blob f n a c t =
        (UploadResult.httpError 500, db, blob)) ∧
    (∀ (env : Env) (db : DB) (blob : List String) (f : String) (n : Nat)
       (a c t : String) (d : Document),
      d ∈ (upload_document env db blob f n a c t).2.1.documents →
      d ∈ db.documents ∨
        ∃ k, k ∈ (upload_document env db blob f n a c t).2.2 ∧
          d.file_path = s3Url env.bucket k) ∧
    (∀ (env : LexAI.Env) (db : LexAI.DB) (blob : List String) (f : String)
       (n : Nat) (a c t : String),
      env.s3PutOk = false →
        (LexAI.upload_file env db blob f n a c t).2.1 = db ∧
          (LexAI.upload_file env db blob f n a c t).2.2 = blob) ∧
    (∀ (env : LexAI.Env) (db : LexAI.DB) (blob : List String) (f : String)
       (n : Nat) (a c t : String) (r : LexAI.FileMetadata),
      r ∈ (LexAI.upload_file env db blob f n a c t).2.1.files →
      r ∈ db.files ∨
        (r.s3_key ∈ (LexAI.upload_file env db blob f n a c t).2.2 ∧
         r.s3_url = s3Url env.bucket r.s3_key)) := by
  refine ⟨?_, ?_, ?_, ?_, ?_⟩
  · intro env db blob f n a c t h
    by_cases hu : env.uuidOk a = true ∧ env.uuidOk c = true
    · cases hA : findAdvocate db a with
      | none => simp [upload_document, hu, hA]
      | some adv =>
        cases hC : findCase db c with
        | none => simp [upload_document, hu, hA, hC]
        | some kk =>
          by_cases hp : onCase db a c = false
          · simp [upload_document, hu, hA, hC, hp]
          · by_cases hv : (validate_file f n).1 = ValidateOutcome.ok
            · simp [upload_document, hu, hA, hC, hp, hv, h]
            · simp [upload_document, hu, hA, hC, hp, hv]
    · simp [upload_document, hu]
  · intro env db blob f n a c t h1 h2 h3 h4 h5 h6 h7
    cases hA : findAdvocate db a with
    | none => rw [hA] at h3; simp at h3
    | some adv =>
      cases hC : findCase db c with
      | none => rw [hC] at h4; simp at h4
      | some kk => simp [upload_document, h1, h2, hA, hC, h5, h6, h7]
  · intro env db blob f n a c t d hd
    rcases upload_document_new_doc env db blob f n a c t d hd with h | h
    · exact Or.inl h
    · exact Or.inr ⟨_, h.2.2.2.2.2.2, h.2.2.2.1⟩
  · intro env db blob f n a c t h
    by_cases ht : t ∈ LexAI.allowed_types
    · simp [LexAI.upload_file, ht, h]
    · simp [LexAI.upload_file, ht]
  · intro env db blob f n a c t r hr
    by_cases ht : t ∈ LexAI.allowed_types
    · by_cases hs : env.s3PutOk = false
      · left; simpa [LexAI.upload_file, ht, hs] using hr
      · by_cases hu : env.uuidOk c = true ∧ env.uuidOk a = true
        · by_cases hcm : env.commitOk = true ∧
            a ++ "/" ++ c ++ "/" ++ t ++ "/" ++ f ∉ LexAI.s3Keys db
          · simp [LexAI.upload_file, ht, hs, hu, hcm, List.mem_append] at hr
            rcases hr with hr | hr
            · exact Or.inl hr
            · right
              subst hr
              constructor
              · simp [LexAI.upload_file, ht, hs, hu, hcm]
              · rfl
          · left; simpa [LexAI.upload_file, ht, hs, hu, hcm] using hr
        · left; simpa [LexAI.upload_file, ht, hs, hu] using hr
    · left; simpa [LexAI.upload_file, ht] using hr

/-- Claim C2, witness: the theorem applied to concrete uploads whose
blob write fails (both variants) and to the row stored by a concrete
successful upload. -/
theorem upload_blob_before_commit_witness :
    ((upload_document (envAll false true) db1 [] "brief.pdf" 10
        "a1" "c1" "evidence").2.1 = db1 ∧
      (upload_document (envAll false true) db1 [] "brief.pdf" 10
        "a1" "c1" "evidence").2.2 = []) ∧
    upload_document (envAll false true) db1 [] "brief.pdf" 10
        "a1" "c1" "evidence" =
      (UploadResult.httpError 500, db1, []) ∧
    ((LexAI.upload_file (lenv "f1" false true true true) ldb0 [] "brief.pdf"
        10 "a1" "c1" "petition").2.1 = ldb0 ∧
      (LexAI.upload_file (lenv "f1" false true true true) ldb0 [] "brief.pdf"
        10 "a1" "c1" "petition").2.2 = []) :=
  ⟨upload_blob_before_commit.1 (envAll false true) db1 [] "brief.pdf" 10
     "a1" "c1" "evidence" rfl,
   upload_blob_before_commit.2.1 (envAll false true) db1 [] "brief.pdf" 10
     "a1" "c1" "evidence" rfl rfl (by decide) (by decide) (by decide)
     (by decide) rfl,
   upload_blob_before_commit.2.2.2.1 (lenv "f1" false true true true) ldb0
     [] "brief.pdf" 10 "a1" "c1" "petition" rfl⟩

/- ------------------------------------------------------------------ -/
/- Claim C3                                                            -/
/- ------------------------------------------------------------------ -/

/-- Claim C3 (confirmed, src/main.py — the variant that models the
advocate-case association): an upload by an existing advocate for an
existing case they are not associated with answers HTTP 403 Forbidden,
with the database and the blob store both unchanged. -/
theorem upload_permission_gate :
    ∀ (env : Env) (db : DB) (blob : List String) (f : String) (n : Nat)
      (a c t : String),
      env.uuidOk a = true → env.uuidOk c = true →
      (findAdvocate db a).isSome = true → (findCase db c).isSome = true →
      onCase db a c = false →
      upload_document env db blob f n a c t =
        (UploadResult.httpError 403, db, blob) := by
  intro env db blob f n a c t h1 h2 h3 h4 h5
  cases hA : findAdvocate db a with
  | none => rw [hA] at h3; simp at h3
  | some adv =>
    cases hC : findCase db c with
    | none => rw [hC] at h4; simp at h4
    | some kk => simp [upload_document, h1, h2, hA, hC, h5]

/-- Claim C3, witness: the theorem applied to `db3`, where advocate `a1`
and case `c1` exist but the association table is empty. -/
theorem upload_permission_gate_witness :
    upload_document (envAll true true) db3 [] "brief.pdf" 10
        "a1" "c1" "evidence" =
      (UploadResult.httpError 403, db3, []) :=
  upload_permission_gate (envAll true true) db3 [] "brief.pdf" 10
    "a1" "c1" "evidence" rfl rfl (by decide) (by decide) (by decide)

/- ------------------------------------------------------------------ -/
/- Lemmas about the soft-delete write                                  -/
/- ------------------------------------------------------------------ -/

/-- The row found by the non-deleted lookup splits the table, and
`markDeleted` rewrites exactly that row: everything before it fails the
lookup predicate, and everything after it is untouched. -/
theorem find_active_split (fs : List LexAI.FileMetadata) (fid : String)
    (r : LexAI.FileMetadata)
    (h : fs.find? (fun x => x.id == fid && x.is_deleted == false) = some r) :
    ∃ l1 l2, fs = l1 ++ r :: l2 ∧
      LexAI.markDeleted fs fid = l1 ++ { r with is_deleted := true } :: l2 ∧
      (∀ x ∈ l1, (x.id == fid && x.is_deleted == false) = false) ∧
      (r.id == fid && r.is_deleted == false) = true := by
  induction fs with
  | nil => simp at h
  | cons a as ih =>
    by_cases hp : (a.id == fid && a.is_deleted == false) = true
    · simp only [List.find?] at h
      rw [hp] at h
      have ha : a = r := by simpa using h
      subst ha
      refine ⟨[], as, rfl, ?_, by simp, hp⟩
      simp only [LexAI.markDeleted]
      rw [if_pos hp]
      simp
    · have hp' : (a.id == fid && a.is_deleted == false) = false := by
        simpa using hp
      simp only [List.find?] at h
      rw [hp'] at h
      obtain ⟨l1, l2, he, hm, hl1, hr⟩ := ih h
      refine ⟨a :: l1, l2, by simp [he], ?_, ?_, hr⟩
      · simp only [LexAI.markDeleted]
        rw [if_neg (fun hc => Bool.false_ne_true (hp' ▸ hc)), hm]
        simp
      · intro x hx
        rcases List.mem_cons.mp hx with hx | hx
        · subst hx; exact hp'
        · exact hl1 x hx

/-- After `markDeleted` on a table with pairwise distinct ids, the
non-deleted lookup for the deleted id finds nothing. -/
theorem findActive_markDeleted_none (db : LexAI.DB) (fid : String)
    (r : LexAI.FileMetadata)
    (hnd : (db.files.map LexAI.FileMetadata.id).Nodup)
    (h : LexAI.findActive db fid = some r) :
    LexAI.findActive { files := LexAI.markDeleted db.files fid } fid = none := by
  obtain ⟨l1, l2, he, hm, hl1, hr⟩ := find_active_split db.files fid r h
  have hid : r.id = fid := by
    have := hr
    simp [Bool.and_eq_true] at this
    exact this.1
  have hl2 : ∀ x ∈ l2, x.id ≠ fid := by
    rw [he] at hnd
    simp only [List.map_append, List.map_cons, List.nodup_append] at hnd
    have hcons := hnd.2.1
    have := (List.nodup_cons.mp hcons).1
    intro x hx hcontra
    exact this (by
      rw [← hid] at hcontra
      exact hcontra ▸ List.mem_map_of_mem LexAI.FileMetadata.id hx)
  unfold LexAI.findActive
  simp only [hm]
  rw [List.find?_eq_none]
  intro x hx
  rcases List.mem_append.mp hx with hx | hx
  · intro hc
    rw [hl1 x hx] at hc
    exact Bool.false_ne_true hc
  · rcases List.mem_cons.mp hx with hx | hx
    · subst hx; simp
    · simp [hl2 x hx]

/- ------------------------------------------------------------------ -/
/- Claim C4                                                            -/
/- ------------------------------------------------------------------ -/

/-- Claim C4 (confirmed): for `delete_file` on an existing non-deleted
record, a failing blob-store delete aborts the whole operation with
HTTP 500 leaving the metadata untouched (the record stays with
`is_deleted = false`); only when the blob delete succeeds is the
record's soft-delete flag set and committed. -/
theorem delete_file_blob_gate :
    ∀ (env : LexAI.Env) (db : LexAI.DB) (blob : List String) (fid : String)
      (r : LexAI.FileMetadata),
      LexAI.findActive db fid = some r → env.uuidOk fid = true →
      (r ∈ db.files ∧ r.is_deleted = false) ∧
      (env.s3DeleteOk = false →
        LexAI.delete_file env db blob fid =
          (LexAI.DeleteFileResult.httpError 500, db, blob)) ∧
      (env.s3DeleteOk = true →
        (LexAI.delete_file env db blob fid).1 = LexAI.DeleteFileResult.success ∧
        (LexAI.delete_file env db blob fid).2.1.files =
          LexAI.markDeleted db.files fid ∧
        { r with is_deleted := true } ∈
          (LexAI.delete_file env db blob fid).2.1.files) := by
  intro env db blob fid r h hu
  have hmem : r ∈ db.files := List.mem_of_find?_eq_some h
  have hflag : r.is_deleted = false := by
    have := List.find?_some h
    simp [Bool.and_eq_true] at this
    exact this.2
  refine ⟨⟨hmem, hflag⟩, ?_, ?_⟩
  · intro hdel
    simp [LexAI.delete_file, hu, h, hdel]
  · intro hdel
    obtain ⟨l1, l2, he, hm, hl1, hr⟩ := find_active_split db.files fid r h
    refine ⟨?_, ?_, ?_⟩
    · simp [LexAI.delete_file, hu, h, hdel]
    · simp [LexAI.delete_file, hu, h, hdel]
    · simp [LexAI.delete_file, hu, h, hdel, hm, List.mem_append]

/-- Claim C4, witness: the theorem applied to the one-row database
`ldb1`, once with a failing and once with a succeeding blob delete. -/
theorem delete_file_blob_gate_witness :
    ((lrow ∈ ldb1.files ∧ lrow.is_deleted = false) ∧
      LexAI.delete_file (lenv "f1" true false true true) ldb1 [] "f1" =
        (LexAI.DeleteFileResult.httpError 500, ldb1, [])) ∧
    ((LexAI.delete_file (lenv "f1" true true true true) ldb1 [] "f1").1 =
        LexAI.DeleteFileResult.success ∧
      { lrow with is_deleted := true } ∈
        (LexAI.delete_file (lenv "f1" true true true true) ldb1 [] "f1").2.1.files) :=
  ⟨⟨((delete_file_blob_gate (lenv "f1" true false true true) ldb1 [] "f1" lrow
       (by decide) rfl).1),
    ((delete_file_blob_gate (lenv "f1" true false true true) ldb1 [] "f1" lrow
       (by decide) rfl).2.1 rfl)⟩,
   ⟨((delete_file_blob_gate (lenv "f1" true true true true) ldb1 [] "f1" lrow
       (by decide) rfl).2.2 rfl).1,
    ((delete_file_blob_gate (lenv "f1" true true true true) ldb1 [] "f1" lrow
       (by decide) rfl).2.2 rfl).2.2⟩⟩

/- ------------------------------------------------------------------ -/
/- Claim C5                                                            -/
/- ------------------------------------------------------------------ -/

/-- Claim C5 (confirmed): soft-deleted rows are filtered out of both
lookup queries while remaining stored.  After a successful `delete_file`
on an id (over a table with pairwise distinct ids), `get_file` on that
id answers HTTP 404, a second `delete_file` answers HTTP 404, and the
row is still present in the table with its flag set. -/
theorem soft_delete_visibility :
    ∀ (env : LexAI.Env) (db : LexAI.DB) (blob blob2 : List String)
      (fid : String),
      (db.files.map LexAI.FileMetadata.id).Nodup →
      (LexAI.delete_file env db blob fid).1 = LexAI.DeleteFileResult.success →
      LexAI.get_file env (LexAI.delete_file env db blob fid).2.1 fid =
        LexAI.GetFileResult.httpError 404 ∧
      (LexAI.delete_file env (LexAI.delete_file env db blob fid).2.1 blob2
          fid).1 = LexAI.DeleteFileResult.httpError 404 ∧
      ∃ r, r ∈ db.files ∧
        { r with is_deleted := true } ∈
          (LexAI.delete_file env db blob fid).2.1.files := by
  intro env db blob blob2 fid hnd hsucc
  by_cases hu : env.uuidOk fid = false
  · simp [LexAI.delete_file, hu] at hsucc
  · have hu' : env.uuidOk fid = true := by
      cases hval : env.uuidOk fid
      · exact absurd hval hu
      · rfl
    cases hfa : LexAI.findActive db fid with
    | none => simp [LexAI.delete_file, hu', hfa] at hsucc
    | some r =>
      by_cases hdel : env.s3DeleteOk = false
      · simp [LexAI.delete_file, hu', hfa, hdel] at hsucc
      · have hdel' : env.s3DeleteOk = true := by
          cases hval : env.s3DeleteOk
          · exact absurd hval hdel
          · rfl
        have hnone := findActive_markDeleted_none db fid r hnd hfa
        obtain ⟨l1, l2, he, hm, _, _⟩ := find_active_split db.files fid r hfa
        refine ⟨?_, ?_, ⟨r, ?_, ?_⟩⟩
        · simp [LexAI.delete_file, hu', hfa, hdel', LexAI.get_file, hnone]
        · simp only [LexAI.delete_file, hu', hfa, hdel']
          simp [hnone, hu']
        · rw [he]; simp
        · simp [LexAI.delete_file, hu', hfa, hdel', hm, List.mem_append]

/-- Claim C5, witness: the theorem applied to the one-row database
`ldb1` and a successful delete of file `f1`. -/
theorem soft_delete_visibility_witness :
    LexAI.get_file (lenv "f1" true true true true)
        (LexAI.delete_file (lenv "f1" true true true true) ldb1 [] "f1").2.1
        "f1" = LexAI.GetFileResult.httpError 404 ∧
    (LexAI.delete_file (lenv "f1" true true true true)
        (LexAI.delete_file (lenv "f1" true true true true) ldb1 [] "f1").2.1
        [] "f1").1 = LexAI.DeleteFileResult.httpError 404 ∧
    ∃ r, r ∈ ldb1.files ∧
      { r with is_deleted := true } ∈
        (LexAI.delete_file (lenv "f1" true true true true) ldb1 []
          "f1").2.1.files :=
  soft_delete_visibility (lenv "f1" true true true true) ldb1 [] [] "f1"
    (by decide) (by decide)

/- ------------------------------------------------------------------ -/
/- Claim C10                                                           -/
/- ------------------------------------------------------------------ -/

/-- Claim C10 (confirmed): a successful `delete_file` mutates only the
`is_deleted` flag of the single targeted row — the table splits around
one non-deleted row with the requested id, that row is replaced by a
copy agreeing on every other column (`file_name`, `case_id`,
`lawyer_id`, `s3_key`, `s3_url`, `file_size`, `file_type`,
`uploaded_at`, `version_id`), and every other row is unchanged. -/
theorem delete_file_frame :
    ∀ (env : LexAI.Env) (db : LexAI.DB) (blob : List String) (fid : String),
      (LexAI.delete_file env db blob fid).1 = LexAI.DeleteFileResult.success →
      ∃ l1 r l2,
        db.files = l1 ++ r :: l2 ∧
        (LexAI.delete_file env db blob fid).2.1.files =
          l1 ++ { r with is_deleted := true } :: l2 ∧
        r.is_deleted = false ∧ r.id = fid ∧
        ({ r with is_deleted := true }).id = r.id ∧
        ({ r with is_deleted := true }).file_name = r.file_name ∧
        ({ r with is_deleted := true }).case_id = r.case_id ∧
        ({ r with is_deleted := true }).lawyer_id = r.lawyer_id ∧
        ({ r with is_deleted := true }).s3_key = r.s3_key ∧
        ({ r with is_deleted := true }).s3_url = r.s3_url ∧
        ({ r with is_deleted := true }).file_size = r.file_size ∧
        ({ r with is_deleted := true }).file_type = r.file_type ∧
        ({ r with is_deleted := true }).uploaded_at = r.uploaded_at ∧
        ({ r with is_deleted := true }).version_id = r.version_id ∧
        ({ r with is_deleted := true }).is_deleted = true := by
  intro env db blob fid hsucc
  by_cases hu : env.uuidOk fid = false
  · simp [LexAI.delete_file, hu] at hsucc
  · have hu' : env.uuidOk fid = true := by
      cases hval : env.uuidOk fid
      · exact absurd hval hu
      · rfl
    cases hfa : LexAI.findActive db fid with
    | none => simp [LexAI.delete_file, hu', hfa] at hsucc
    | some r =>
      by_cases hdel : env.s3DeleteOk = false
      · simp [LexAI.delete_file, hu', hfa, hdel] at hsucc
      · obtain ⟨l1, l2, he, hm, _, hr⟩ := find_active_split db.files fid r hfa
        have hflag : r.is_deleted = false := by
          simp [Bool.and_eq_true] at hr
          exact hr.2
        have hid : r.id = fid := by
          simp [Bool.and_eq_true] at hr
          exact hr.1
        refine ⟨l1, r, l2, he, ?_, hflag, hid,
          rfl, rfl, rfl, rfl, rfl, rfl, rfl, rfl, rfl, rfl, rfl⟩
        simp [LexAI.delete_file, hu', hfa, hdel, hm]

/-- Claim C10, witness: the frame theorem applied to a concrete
successful delete on the one-row database `ldb1`. -/
theorem delete_file_frame_witness :
    ∃ l1 r l2,
      ldb1.files = l1 ++ r :: l2 ∧
      (LexAI.delete_file (lenv "f1" true true true true) ldb1 []
          "f1").2.1.files = l1 ++ { r with is_deleted := true } :: l2 ∧
      r.is_deleted = false ∧ r.id = "f1" ∧
      ({ r with is_deleted := true }).id = r.id ∧
      ({ r with is_deleted := true }).file_name = r.file_name ∧
      ({ r with is_deleted := true }).case_id = r.case_id ∧
      ({ r with is_deleted := true }).lawyer_id = r.lawyer_id ∧
      ({ r with is_deleted := true }).s3_key = r.s3_key ∧
      ({ r with is_deleted := true }).s3_url = r.s3_url ∧
      ({ r with is_deleted := true }).file_size = r.file_size ∧
      ({ r with is_deleted := true }).file_type = r.file_type ∧
      ({ r with is_deleted := true }).uploaded_at = r.uploaded_at ∧
      ({ r with is_deleted := true }).version_id = r.version_id ∧
      ({ r with is_deleted := true }).is_deleted = true :=
  delete_file_frame (lenv "f1" true true true true) ldb1 [] "f1" (by decide)

/- ------------------------------------------------------------------ -/
/- Claim C6                                                            -/
/- ------------------------------------------------------------------ -/

/-- A successful LexAI `upload_file` appends exactly one row, whose
`s3_key` is `{adv_id}/{case_id}/{file_type}/{client filename}` and was
not present in the table before (the commit enforces the `s3_key`
unique constraint). -/
theorem upload_file_success_shape (env : LexAI.Env) (db : LexAI.DB)
    (blob : List String) (f : String) (n : Nat) (a c t : String)
    (i u : String)
    (h : (LexAI.upload_file env db blob f n a c t).1 =
      LexAI.UploadFileResult.success i u) :
    (LexAI.upload_file env db blob f n a c t).2.1.files =
      db.files ++
        [{ id := env.freshId, file_name := f, case_id := c,
           lawyer_id := a, s3_key := a ++ "/" ++ c ++ "/" ++ t ++ "/" ++ f,
           s3_url := s3Url env.bucket (a ++ "/" ++ c ++ "/" ++ t ++ "/" ++ f),
           file_size := n, file_type := t, uploaded_at := env.now,
           version_id := none, is_deleted := false }] ∧
    (a ++ "/" ++ c ++ "/" ++ t ++ "/" ++ f) ∉ LexAI.s3Keys db := by
  by_cases ht : t ∈ LexAI.allowed_types
  · by_cases hs : env.s3PutOk = false
    · simp [LexAI.upload_file, ht, hs] at h
    · by_cases hu2 : env.uuidOk c = true ∧ env.uuidOk a = true
      · by_cases hcm : env.commitOk = true ∧
          a ++ "/" ++ c ++ "/" ++ t ++ "/" ++ f ∉ LexAI.s3Keys db
        · exact ⟨by simp [LexAI.upload_file, ht, hs, hu2, hcm], hcm.2⟩
        · simp [LexAI.upload_file, ht, hs, hu2, hcm] at h
      · simp [LexAI.upload_file, ht, hs, hu2] at h
  · simp [LexAI.upload_file, ht] at h

/-- Claim C6 (amended): no two committed metadata rows share a storage
key, but the mechanism differs per endpoint.  In `upload_document`
(src/main.py) keys are `{advocateId}/{caseId}/{docType}/{generated
filename}` and distinct generated identifiers (of equal length) force
distinct keys; in the LexAI `upload_file` the key's final component is
the client-supplied filename — no generated randomness enters it — and
uniqueness of committed keys is enforced by the `s3_key` unique
constraint at commit time. -/
theorem storage_key_discipline :
    (∀ (env env' : Env) (f f' a c t : String),
      env.freshUuid.length = env'.freshUuid.length →
      env.freshUuid ≠ env'.freshUuid →
      uploadKey a c t (sanitize_filename env.freshUuid f) ≠
        uploadKey a c t (sanitize_filename env'.freshUuid f')) ∧
    (∀ (env : LexAI.Env) (db : LexAI.DB) (blob : List String) (f : String)
       (n : Nat) (a c t : String),
      (LexAI.s3Keys db).Nodup →
      (LexAI.s3Keys (LexAI.upload_file env db blob f n a c t).2.1).Nodup) ∧
    (∀ (env : LexAI.Env) (db : LexAI.DB) (blob : List String) (f : String)
       (n : Nat) (a c t : String) (i u : String),
      (LexAI.upload_file env db blob f n a c t).1 =
        LexAI.UploadFileResult.success i u →
      LexAI.s3Keys (LexAI.upload_file env db blob f n a c t).2.1 =
        LexAI.s3Keys db ++ [a ++ "/" ++ c ++ "/" ++ t ++ "/" ++ f]) ∧
    (∀ (env : Env) (db : DB) (blob : List String) (f : String) (n : Nat)
       (a c t : String) (d : Document),
      d ∈ (upload_document env db blob f n a c t).2.1.documents →
      d ∈ db.documents ∨
        d.file_path =
          s3Url env.bucket (uploadKey a c t
            (sanitize_filename env.freshUuid f))) := by
  refine ⟨?_, ?_, ?_, ?_⟩
  · intro env env' f f' a c t hlen hne h
    apply hne
    have hd := congrArg String.data h
    simp only [uploadKey, sanitize_filename, String.data_append,
      List.append_assoc] at hd
    have hd2 := List.append_cancel_left hd
    have hd3 := List.append_cancel_left hd2
    have hd4 := List.append_cancel_left hd3
    have hd5 := List.append_cancel_left hd4
    have hd6 := List.append_cancel_left hd5
    have hd7 := List.append_cancel_left hd6
    have hlen' : env.freshUuid.data.length = env'.freshUuid.data.length :=
      hlen
    have hu : env.freshUuid.data = env'.freshUuid.data :=
      List.append_inj_left hd7 hlen'
    exact String.ext hu
  · intro env db blob f n a c t hnd
    by_cases ht : t ∈ LexAI.allowed_types
    · by_cases hs : env.s3PutOk = false
      · simpa [LexAI.upload_file, ht, hs] using hnd
      · by_cases hu2 : env.uuidOk c = true ∧ env.uuidOk a = true
        · by_cases hcm : env.commitOk = true ∧
            a ++ "/" ++ c ++ "/" ++ t ++ "/" ++ f ∉ LexAI.s3Keys db
          · have hfiles := (upload_file_success_shape env db blob f n a c t
              env.freshId
              (s3Url env.bucket (a ++ "/" ++ c ++ "/" ++ t ++ "/" ++ f))
              (by simp [LexAI.upload_file, ht, hs, hu2, hcm])).1
            simp only [LexAI.s3Keys] at hnd ⊢
            rw [hfiles, List.map_append]
            simp only [List.map_cons, List.map_nil]
            rw [List.nodup_append]
            refine ⟨hnd, by simp, ?_⟩
            intro x hx hmem
            simp at hmem
            subst hmem
            exact hcm.2 hx
          · simpa [LexAI.upload_file, ht, hs, hu2, hcm] using hnd
        · simpa [LexAI.upload_file, ht, hs, hu2] using hnd
    · simpa [LexAI.upload_file, ht] using hnd
  · intro env db blob f n a c t i u h
    obtain ⟨hfiles, _⟩ := upload_file_success_shape env db blob f n a c t i u h
    simp [LexAI.s3Keys, hfiles]
  · intro env db blob f n a c t d hd
    rcases upload_document_new_doc env db blob f n a c t d hd with h | h
    · exact Or.inl h
    · exact Or.inr h.2.2.2.1

/-- Claim C6, counterexample to the claim as stated: in the LexAI
`upload_file` the storage key ends in the client-supplied filename, so
two successful uploads that differ in every fresh value (distinct fresh
row ids standing for the only randomness drawn) still produce records
with the very same storage key — the key contains no generated filename
component at all. -/
theorem lexai_upload_key_not_generated_cex :
    (LexAI.upload_file (lenv "f1" true true true true) ldb0 [] "brief.pdf"
        10 "a1" "c1" "petition").1 =
      LexAI.UploadFileResult.success "f1"
        (s3Url "b" "a1/c1/petition/brief.pdf") ∧
    (LexAI.upload_file (lenv "f2" true true true true) ldb0 [] "brief.pdf"
        10 "a1" "c1" "petition").1 =
      LexAI.UploadFileResult.success "f2"
        (s3Url "b" "a1/c1/petition/brief.pdf") ∧
    LexAI.s3Keys (LexAI.upload_file (lenv "f1" true true true true) ldb0 []
        "brief.pdf" 10 "a1" "c1" "petition").2.1 =
      LexAI.s3Keys (LexAI.upload_file (lenv "f2" true true true true) ldb0 []
        "brief.pdf" 10 "a1" "c1" "petition").2.1 ∧
    (lenv "f1" true true true true).freshId ≠
      (lenv "f2" true true true true).freshId := by
  decide

/-- Claim C6, witness: the amended theorem applied at concrete inputs —
distinct generated identifiers give distinct src/main.py keys, and a
concrete successful LexAI upload extends the key set by the
client-named key while preserving distinctness. -/
theorem storage_key_discipline_witness :
    uploadKey "a1" "c1" "evidence" (sanitize_filename "u1" "brief.pdf") ≠
      uploadKey "a1" "c1" "evidence" (sanitize_filename "u2" "other.pdf") ∧
    (LexAI.s3Keys (LexAI.upload_file (lenv "f1" true true true true) ldb0 []
        "brief.pdf" 10 "a1" "c1" "petition").2.1).Nodup ∧
    LexAI.s3Keys (LexAI.upload_file (lenv "f1" true true true true) ldb0 []
        "brief.pdf" 10 "a1" "c1" "petition").2.1 =
      LexAI.s3Keys ldb0 ++
        ["a1" ++ "/" ++ "c1" ++ "/" ++ "petition" ++ "/" ++ "brief.pdf"] :=
  ⟨storage_key_discipline.1 (envAll true true)
     { envAll true true with freshUuid := "u2" } "brief.pdf" "other.pdf"
     "a1" "c1" "evidence" (by decide) (by decide),
   storage_key_discipline.2.1 (lenv "f1" true true true true) ldb0 []
     "brief.pdf" 10 "a1" "c1" "petition" (by decide),
   storage_key_discipline.2.2.1 (lenv "f1" true true true true) ldb0 []
     "brief.pdf" 10 "a1" "c1" "petition" "f1"
     (s3Url "b" "a1/c1/petition/brief.pdf") (by decide)⟩

/- ------------------------------------------------------------------ -/
/- Claim C9                                                            -/
/- ------------------------------------------------------------------ -/

/-- Claim C9 (code bug witnessed): with well-formed UUIDs, an existing
client and no matching advocate row, the `try` block of `register_case`
raises `HTTPException(404, "Advocate not found")` — but the endpoint's
blanket `except Exception` handler catches that very exception and
re-raises it as HTTP 400, so the caller observes 400, not the NotFound
the code itself constructed.  On the success path the new case is
linked to the client by foreign key and to the advocate through the
association table, as claimed. -/
theorem register_case_notfound_demoted :
    register_case (envAll true true) db9 "Case1" "a1" "k1" "civil"
        none none = (RegisterResult.httpError 400, db9) ∧
    register_case_try (envAll true true) db9 "Case1" "a1" "k1" "civil"
        none none = Except.error (PyExc.httpExc 404) ∧
    register_case (envAll true true) db1 "Case1" "a1" "k1" "civil"
        none none =
      (RegisterResult.success "n1",
       { db1 with
           cases := db1.cases ++
             [{ id := "n1", name := "Case1", case_type := "civil",
                client_id := "k1", description := none,
                filing_date := none }],
           advocate_cases := db1.advocate_cases ++ [("a1", "n1")] }) := by
  refine ⟨by decide, by rfl, by decide⟩

